import Mathlib

set_option maxHeartbeats 1000000

namespace FamilyTree

/-! Shallow embedding of the FamilyTree backend (src/app/backend/main.py).
Strings are Lean `String`; SQL text comparison, Python `str.strip`,
`str.lower` and slicing are modelled by executable helpers over the
character list of the string.  The SQLite tables become lists of records
in a `DB` value, and every Flask handler becomes a pure function from its
request data and the current `DB` to an `Except Err` result (errors carry
no new state: the handler returns before committing anything). -/

/-- ASCII lower-casing of one character, as Python str.lower acts on the ASCII range. -/
def charLower (c : Char) : Char :=
  if 65 ≤ c.toNat ∧ c.toNat ≤ 90 then Char.ofNat (c.toNat + 32) else c

/-- Python str.lower (restricted to ASCII letters). -/
def strLower (s : String) : String := ⟨s.data.map charLower⟩

/-- Whitespace recognized when stripping, as Python str.strip does. -/
def isSpaceChar (c : Char) : Bool := c == ' ' || c == '\t' || c == '\n' || c == '\r'

/-- Python str.strip: drop leading and trailing whitespace. -/
def strTrim (s : String) : String :=
  ⟨((s.data.dropWhile isSpaceChar).reverse.dropWhile isSpaceChar).reverse⟩

/-- Lexicographic order on character lists by code point, as SQLite compares TEXT values. -/
def strLtChars : List Char → List Char → Bool
  | [], [] => false
  | [], _ :: _ => true
  | _ :: _, [] => false
  | a :: as, b :: bs =>
    if a.toNat < b.toNat then true
    else if a.toNat = b.toNat then strLtChars as bs
    else false

/-- SQLite TEXT comparison on strings (used for ISO timestamps and dates). -/
def strLt (a b : String) : Bool := strLtChars a.data b.data

/-- token_header.startswith of the literal Bearer prefix (7 characters). -/
def strHasBearer (s : String) : Bool := s.data.take 7 == "Bearer ".data

/-- token_header[7:], stripping the Bearer prefix. -/
def strDropBearer (s : String) : String := ⟨s.data.drop 7⟩

/-- Python (x or ''): a missing JSON string defaults to the empty string. -/
def orEmpty : Option String → String
  | some s => s
  | none => ""

/-- Python truthiness of an optional string: None and the empty string are falsy. -/
def truthyStr : Option String → Bool
  | some s => !(s == "")
  | none => false

/-- Python truthiness of an optional integer: None and 0 are falsy. -/
def truthyNat : Option Nat → Bool
  | some n => !(n == 0)
  | none => false

/-- The SQLite rowid handed out for the next INSERT: one past the largest id in the table. -/
def nextId (ids : List Nat) : Nat := ids.foldr max 0 + 1

/-- Fixed relationship types used in the Relationships table (RELATION_TYPES in main.py). -/
def RELATION_TYPES : List String := ["father", "mother", "brother", "sister", "husband", "wife"]

/-- A row of the Users table. -/
structure User where
  id : Nat
  username : String
  password_hash : String
  email : String
  full_name : String
  is_active : Bool
  created_at : String
  updated_at : String
deriving DecidableEq

/-- A row of the Sessions table. -/
structure Session where
  id : Nat
  user_id : Nat
  session_token : String
  created_at : String
  expires_at : String
deriving DecidableEq

/-- A row of the People table. Nullable columns are Options. -/
structure Person where
  id : Nat
  user_id : Nat
  given_name : Option String
  family_name : Option String
  other_names : Option String
  gender : Option String
  birth_date : Option String
  death_date : Option String
  birth_place : Option String
  bio : Option String
  relation : Option String
  is_deleted : Bool
  created_at : String
  updated_at : String
deriving DecidableEq

/-- A row of the Relationships table. -/
structure Relationship where
  id : Nat
  person1_id : Nat
  person2_id : Nat
  type : String
  details : Option String
  start_date : Option String
  end_date : Option String
  created_at : String
  updated_at : String
deriving DecidableEq

/-- A row of the Events table. -/
structure Event where
  id : Nat
  title : String
  event_date : Option String
  place : String
  description : String
  created_by : Nat
  user_id : Nat
  created_at : String
  updated_at : String
deriving DecidableEq

/-- The whole persistent store. -/
structure DB where
  users : List User
  sessions : List Session
  people : List Person
  relationships : List Relationship
  events : List Event
deriving DecidableEq

/-- Typed outcome of a handler, per the HTTP status it answers with. -/
inductive Err where
  | notFound
  | validation (msg : String)
  | conflict (msg : String)
deriving DecidableEq

instance {ε α : Type} [DecidableEq ε] [DecidableEq α] : DecidableEq (Except ε α) := fun a b =>
  match a, b with
  | Except.ok x, Except.ok y =>
    if h : x = y then isTrue (by rw [h]) else isFalse (by intro hc; cases hc; exact h rfl)
  | Except.ok _, Except.error _ => isFalse (by intro hc; cases hc)
  | Except.error _, Except.ok _ => isFalse (by intro hc; cases hc)
  | Except.error x, Except.error y =>
    if h : x = y then isTrue (by rw [h]) else isFalse (by intro hc; cases hc; exact h rfl)

/-- The joined User projection handed to handlers: id, username, email,
full_name.  The SELECT in get_current_user never reads the password hash,
so this record has no field for it. -/
structure CurrentUser where
  id : Nat
  username : String
  email : String
  full_name : String
deriving DecidableEq

/-- SELECT u.id, u.username, u.email, u.full_name for a Users row. -/
def projUser (u : User) : CurrentUser :=
  { id := u.id, username := u.username, email := u.email, full_name := u.full_name }

/-- sha256 digest, abstracted to a deterministic injective tag (hash_password in main.py). -/
def hash_password (password : String) : String := "sha256(" ++ password ++ ")"

/-- Rows of the Sessions-Users join of get_current_user contributed by one
session: the WHERE clause asks for the matching token, an expiry strictly
in the future, and an active owning user. -/
def sessionRowsFor (token now : String) (users : List User) (s : Session) : List CurrentUser :=
  (users.filter (fun u =>
      s.session_token == token && strLt now s.expires_at && u.id == s.user_id && u.is_active)).map
    projUser

/-- All rows of the join in get_current_user, in table order. -/
def sessionUserRows (token now : String) (db : DB) : List CurrentUser :=
  db.sessions.flatMap (sessionRowsFor token now db.users)

/-- get_current_user: resolve the Authorization header to a user, or None. -/
def get_current_user (authHeader : Option String) (now : String) (db : DB) : Option CurrentUser :=
  match authHeader with
  | none => none
  | some h =>
    if strHasBearer h then (sessionUserRows (strDropBearer h) now db).head?
    else none

/-- Body of the logout handler: strip the Bearer prefix and delete the
matching Sessions rows; always answers success. -/
def logout (authHeader : String) (db : DB) : Except Err DB :=
  match (if strHasBearer authHeader then some (strDropBearer authHeader) else none) with
  | some t =>
    Except.ok { db with sessions := db.sessions.filter (fun s => !(s.session_token == t)) }
  | none => Except.ok db

/-- JSON body of a register request. -/
structure RegisterInput where
  username : Option String
  password : Option String
  email : Option String
  full_name : Option String
deriving DecidableEq

/-- register handler: validate, reject a duplicate username, insert the Users row. -/
def register (input : RegisterInput) (now : String) (db : DB) : Except Err (DB × Nat) :=
  let username := strTrim (orEmpty input.username)
  let password := orEmpty input.password
  let email := strTrim (orEmpty input.email)
  let full_name := strTrim (orEmpty input.full_name)
  if username == "" || password == "" then
    Except.error (Err.validation "Username and password are required")
  else if password.length < 6 then
    Except.error (Err.validation "Password must be at least 6 characters")
  else
    match db.users.find? (fun u => u.username == username) with
    | some _ => Except.error (Err.conflict "Username already exists")
    | none =>
      let uid := nextId (db.users.map (fun u => u.id))
      Except.ok
        ({ db with
            users := db.users ++
              [{ id := uid, username := username, password_hash := hash_password password,
                 email := email, full_name := full_name, is_active := true,
                 created_at := now, updated_at := now }] },
          uid)

/-- The nine mutable People columns as carried in a create or update request body. -/
structure PersonFields where
  given_name : Option String
  family_name : Option String
  other_names : Option String
  gender : Option String
  birth_date : Option String
  death_date : Option String
  birth_place : Option String
  bio : Option String
  relation : Option String
deriving DecidableEq

/-- WHERE id = ? AND is_deleted = 0 AND user_id = ? on the People table,
the row filter shared by get_person, update_person and delete_person. -/
def personMatch (caller pid : Nat) (p : Person) : Bool :=
  p.id == pid && !p.is_deleted && p.user_id == caller

/-- SQLite ascending comparison on a nullable TEXT column: NULL sorts before any value. -/
def optStrLt : Option String → Option String → Bool
  | none, some _ => true
  | none, none => false
  | some _, none => false
  | some x, some y => strLt x y

/-- Ascending (family_name, given_name) order of get_all_people; SQLite sorts NULL first. -/
def personLe (a b : Person) : Prop :=
  (a.family_name = b.family_name ∧
    (a.given_name = b.given_name ∨ optStrLt a.given_name b.given_name = true)) ∨
  optStrLt a.family_name b.family_name = true

instance : DecidableRel personLe := fun a b =>
  inferInstanceAs (Decidable ((a.family_name = b.family_name ∧
    (a.given_name = b.given_name ∨ optStrLt a.given_name b.given_name = true)) ∨
  optStrLt a.family_name b.family_name = true))

/-- get_all_people: non-deleted People owned by the caller, ordered by family then given name. -/
def get_all_people (caller : Nat) (db : DB) : List Person :=
  List.insertionSort personLe (db.people.filter (fun p => !p.is_deleted && p.user_id == caller))

/-- get_person: single-row SELECT with the shared visibility filter. -/
def get_person (caller pid : Nat) (db : DB) : Except Err Person :=
  match db.people.find? (personMatch caller pid) with
  | some p => Except.ok p
  | none => Except.error Err.notFound

/-- create_person: require truthy given_name and family_name, then insert. -/
def create_person (caller : Nat) (data : PersonFields) (now : String) (db : DB) :
    Except Err (DB × Nat) :=
  if !truthyStr data.given_name || !truthyStr data.family_name then
    Except.error (Err.validation "Given name and family name are required")
  else
    let pid := nextId (db.people.map (fun p => p.id))
    Except.ok
      ({ db with
          people := db.people ++
            [{ id := pid, user_id := caller, given_name := data.given_name,
               family_name := data.family_name, other_names := data.other_names,
               gender := data.gender, birth_date := data.birth_date,
               death_date := data.death_date, birth_place := data.birth_place,
               bio := data.bio, relation := data.relation, is_deleted := false,
               created_at := now, updated_at := now }] },
        pid)

/-- update_person: visibility check as in get_person, then UPDATE ... WHERE id AND user_id
overwriting the nine mutable columns and updated_at. -/
def update_person (caller pid : Nat) (data : PersonFields) (now : String) (db : DB) :
    Except Err DB :=
  match db.people.find? (personMatch caller pid) with
  | none => Except.error Err.notFound
  | some _ =>
    Except.ok
      { db with
          people := db.people.map (fun p =>
            if p.id == pid && p.user_id == caller then
              { p with given_name := data.given_name, family_name := data.family_name,
                       other_names := data.other_names, gender := data.gender,
                       birth_date := data.birth_date, death_date := data.death_date,
                       birth_place := data.birth_place, bio := data.bio,
                       relation := data.relation, updated_at := now }
            else p) }

/-- delete_person: visibility check as in get_person, then soft delete
(UPDATE ... SET is_deleted = 1, updated_at = now WHERE id AND user_id). -/
def delete_person (caller pid : Nat) (now : String) (db : DB) : Except Err DB :=
  match db.people.find? (personMatch caller pid) with
  | none => Except.error Err.notFound
  | some _ =>
    Except.ok
      { db with
          people := db.people.map (fun p =>
            if p.id == pid && p.user_id == caller then
              { p with is_deleted := true, updated_at := now }
            else p) }

/-- p.given_name || ' ' || p.family_name: SQL concatenation is NULL if either part is NULL. -/
def displayName (p : Person) : Option String :=
  match p.given_name, p.family_name with
  | some g, some f => some (g ++ " " ++ f)
  | _, _ => none

/-- A row of the relationship SELECTs, with the denormalized endpoint names. -/
structure RelRow where
  id : Nat
  person1_id : Nat
  person1_name : Option String
  person2_id : Nat
  person2_name : Option String
  type : String
  details : Option String
  start_date : Option String
  end_date : Option String
  created_at : String
  updated_at : String
deriving DecidableEq

/-- Build the SELECT row from a join triple. -/
def relRowOf (r : Relationship) (p1 p2 : Person) : RelRow :=
  { id := r.id, person1_id := r.person1_id, person1_name := displayName p1,
    person2_id := r.person2_id, person2_name := displayName p2, type := r.type,
    details := r.details, start_date := r.start_date, end_date := r.end_date,
    created_at := r.created_at, updated_at := r.updated_at }

/-- The Relationships-People-People join of get_relationship, update_relationship
and delete_relationship: WHERE r.id = ? AND p1.user_id = ? AND p2.user_id = ?
(note: no is_deleted condition appears in this query). -/
def relOwnedJoin (caller rid : Nat) (db : DB) : List (Relationship × Person × Person) :=
  db.relationships.flatMap (fun r =>
    db.people.flatMap (fun p1 =>
      db.people.filterMap (fun p2 =>
        if r.person1_id == p1.id && r.person2_id == p2.id && r.id == rid &&
            p1.user_id == caller && p2.user_id == caller
        then some (r, p1, p2) else none)))

/-- The join of get_relationships (the list endpoint): both endpoints must be
owned by the caller AND non-deleted. -/
def relListJoin (caller : Nat) (db : DB) : List (Relationship × Person × Person) :=
  db.relationships.flatMap (fun r =>
    db.people.flatMap (fun p1 =>
      db.people.filterMap (fun p2 =>
        if r.person1_id == p1.id && r.person2_id == p2.id &&
            p1.user_id == caller && p2.user_id == caller &&
            !p1.is_deleted && !p2.is_deleted
        then some (r, p1, p2) else none)))

/-- ORDER BY r.created_at DESC of the relationship list. -/
def relOrder (a b : Relationship × Person × Person) : Prop :=
  a.1.created_at = b.1.created_at ∨ strLt b.1.created_at a.1.created_at = true

instance : DecidableRel relOrder := fun a b =>
  inferInstanceAs (Decidable (a.1.created_at = b.1.created_at ∨ strLt b.1.created_at a.1.created_at = true))

/-- get_relationships: filtered join, most recent created_at first. -/
def get_relationships (caller : Nat) (db : DB) : List RelRow :=
  (List.insertionSort relOrder (relListJoin caller db)).map (fun t => relRowOf t.1 t.2.1 t.2.2)

/-- get_relationship: first row of the ownership join, else NotFound. -/
def get_relationship (caller rid : Nat) (db : DB) : Except Err RelRow :=
  match (relOwnedJoin caller rid db).head? with
  | some t => Except.ok (relRowOf t.1 t.2.1 t.2.2)
  | none => Except.error Err.notFound

/-- JSON body of a relationship create or update request. -/
structure RelInput where
  person1_id : Option Nat
  person2_id : Option Nat
  type : Option String
  details : Option String
  start_date : Option String
  end_date : Option String
deriving DecidableEq

/-- The normalized relationship type: (data.get of type or '').strip().lower(). -/
def normType (t : Option String) : String := strLower (strTrim (orEmpty t))

/-- COUNT(*) FROM People WHERE id IN (?, ?) AND user_id = ? AND is_deleted = 0. -/
def ownedPairCount (caller p1 p2 : Nat) (db : DB) : Nat :=
  db.people.countP (fun p => (p.id == p1 || p.id == p2) && p.user_id == caller && !p.is_deleted)

/-- create_relationship: the four validations in source order, then the INSERT
with the lower-cased type. -/
def create_relationship (caller : Nat) (input : RelInput) (now : String) (db : DB) :
    Except Err (DB × Nat) :=
  let rel_type := normType input.type
  if !truthyNat input.person1_id || !truthyNat input.person2_id then
    Except.error (Err.validation "Both people are required")
  else if input.person1_id == input.person2_id then
    Except.error (Err.validation "A person cannot have a relationship with themselves")
  else if !(rel_type == "") && !(RELATION_TYPES.contains rel_type) then
    Except.error (Err.validation "Invalid relationship type")
  else
    let p1 := input.person1_id.getD 0
    let p2 := input.person2_id.getD 0
    if !(ownedPairCount caller p1 p2 db == 2) then
      Except.error (Err.validation "Both people must exist and belong to the current user")
    else
      let rid := nextId (db.relationships.map (fun r => r.id))
      Except.ok
        ({ db with
            relationships := db.relationships ++
              [{ id := rid, person1_id := p1, person2_id := p2, type := rel_type,
                 details := input.details, start_date := input.start_date,
                 end_date := input.end_date, created_at := now, updated_at := now }] },
          rid)

/-- update_relationship: the ownership join check first (NotFound), then the
same four validations as create, then the UPDATE. -/
def update_relationship (caller rid : Nat) (input : RelInput) (now : String) (db : DB) :
    Except Err DB :=
  let rel_type := normType input.type
  if (relOwnedJoin caller rid db).head? = none then Except.error Err.notFound
  else if !truthyNat input.person1_id || !truthyNat input.person2_id then
    Except.error (Err.validation "Both people are required")
  else if input.person1_id == input.person2_id then
    Except.error (Err.validation "A person cannot have a relationship with themselves")
  else if !(rel_type == "") && !(RELATION_TYPES.contains rel_type) then
    Except.error (Err.validation "Invalid relationship type")
  else
    let p1 := input.person1_id.getD 0
    let p2 := input.person2_id.getD 0
    if !(ownedPairCount caller p1 p2 db == 2) then
      Except.error (Err.validation "Both people must exist and belong to the current user")
    else
      Except.ok
        { db with
            relationships := db.relationships.map (fun r =>
              if r.id == rid then
                { r with person1_id := p1, person2_id := p2, type := rel_type,
                         details := input.details, start_date := input.start_date,
                         end_date := input.end_date, updated_at := now }
              else r) }

/-- delete_relationship: ownership join check, then hard DELETE by id. -/
def delete_relationship (caller rid : Nat) (db : DB) : Except Err DB :=
  if (relOwnedJoin caller rid db).head? = none then Except.error Err.notFound
  else Except.ok { db with relationships := db.relationships.filter (fun r => !(r.id == rid)) }

/-- JSON body of an event create or update request. -/
structure EventInput where
  created_by : Option Nat
  person_id : Option Nat
  title : Option String
  event_date : Option String
  place : Option String
  description : Option String
deriving DecidableEq

/-- person_id = data.get of created_by or data.get of person_id (Python or: first truthy). -/
def pickPerson (input : EventInput) : Option Nat :=
  if truthyNat input.created_by then input.created_by else input.person_id

/-- ORDER BY e.event_date IS NULL, e.event_date DESC, e.id DESC of list_events. -/
def eventLe (a b : Event) : Prop :=
  match a.event_date, b.event_date with
  | some x, some y => if x = y then b.id ≤ a.id else strLt x y = false
  | some _, none => True
  | none, some _ => False
  | none, none => b.id ≤ a.id

instance : DecidableRel eventLe := fun a b => by
  unfold eventLe
  cases a.event_date <;> cases b.event_date <;> infer_instance

/-- A row of the event SELECTs, with the LEFT-JOINed subject name. -/
structure EventRow where
  id : Nat
  title : String
  event_date : Option String
  place : String
  description : String
  created_by : Nat
  person_name : Option String
deriving DecidableEq

/-- LEFT JOIN People p ON e.created_by = p.id, then project the SELECT columns. -/
def eventToRow (db : DB) (e : Event) : EventRow :=
  { id := e.id, title := e.title, event_date := e.event_date, place := e.place,
    description := e.description, created_by := e.created_by,
    person_name := (db.people.find? (fun p => p.id == e.created_by)).bind displayName }

/-- list_events: events of the caller, null dates last, then date and id descending. -/
def list_events (caller : Nat) (db : DB) : List EventRow :=
  (List.insertionSort eventLe (db.events.filter (fun e => e.user_id == caller))).map
    (eventToRow db)

/-- create_event: require a truthy person id and non-blank title, require the
subject Person to be visible to the caller, then insert. -/
def create_event (caller : Nat) (input : EventInput) (now : String) (db : DB) :
    Except Err (DB × Nat) :=
  let person_id := pickPerson input
  let title := strTrim (orEmpty input.title)
  if !truthyNat person_id || title == "" then
    Except.error (Err.validation "Person and title are required")
  else
    let pid := person_id.getD 0
    match db.people.find? (fun p => p.id == pid && p.user_id == caller && !p.is_deleted) with
    | none => Except.error Err.notFound
    | some _ =>
      let eid := nextId (db.events.map (fun e => e.id))
      Except.ok
        ({ db with
            events := db.events ++
              [{ id := eid, title := title, event_date := input.event_date,
                 place := orEmpty input.place, description := orEmpty input.description,
                 created_by := pid, user_id := caller, created_at := now,
                 updated_at := now }] },
          eid)

/-- get_event: single event scoped by (id, user_id), with the LEFT-JOINed name. -/
def get_event (caller eid : Nat) (db : DB) : Except Err EventRow :=
  match db.events.find? (fun e => e.id == eid && e.user_id == caller) with
  | some e => Except.ok (eventToRow db e)
  | none => Except.error Err.notFound

/-- update_event: input validation, then the event existence check scoped by
(id, user_id), then the subject Person visibility check, then the UPDATE. -/
def update_event (caller eid : Nat) (input : EventInput) (now : String) (db : DB) :
    Except Err DB :=
  let person_id := pickPerson input
  let title := strTrim (orEmpty input.title)
  if !truthyNat person_id || title == "" then
    Except.error (Err.validation "Person and title are required")
  else
    match db.events.find? (fun e => e.id == eid && e.user_id == caller) with
    | none => Except.error Err.notFound
    | some _ =>
      let pid := person_id.getD 0
      match db.people.find? (fun p => p.id == pid && p.user_id == caller && !p.is_deleted) with
      | none => Except.error Err.notFound
      | some _ =>
        Except.ok
          { db with
              events := db.events.map (fun e =>
                if e.id == eid && e.user_id == caller then
                  { e with title := title, event_date := input.event_date,
                           place := orEmpty input.place,
                           description := orEmpty input.description,
                           created_by := pid, updated_at := now }
                else e) }

/-- delete_event: DELETE FROM Events WHERE id = ? AND user_id = ?, then
NotFound when the delete touched no row. -/
def delete_event (caller eid : Nat) (db : DB) : Except Err DB :=
  let remaining := db.events.filter (fun e => !(e.id == eid && e.user_id == caller))
  if remaining.length == db.events.length then Except.error Err.notFound
  else Except.ok { db with events := remaining }

/-- The cross-entity invariant claimed for Events: created_by references a
non-deleted Person owned by the same user as the event. -/
def eventsConsistent (db : DB) : Bool :=
  db.events.all (fun e =>
    db.people.any (fun p => p.id == e.created_by && !p.is_deleted && p.user_id == e.user_id))

/-- Well-formedness the store guarantees through PRIMARY KEY and UNIQUE
constraints: ids are unique per table and session tokens are unique. -/
def DB.WF (db : DB) : Prop :=
  (db.users.map (fun u => u.id)).Nodup ∧
  (db.sessions.map (fun s => s.session_token)).Nodup ∧
  (db.people.map (fun p => p.id)).Nodup ∧
  (db.relationships.map (fun r => r.id)).Nodup ∧
  (db.events.map (fun e => e.id)).Nodup

instance (db : DB) : Decidable db.WF :=
  inferInstanceAs (Decidable (_ ∧ _ ∧ _ ∧ _ ∧ _))

/-- The empty store, as created before any request. -/
def DB.empty : DB := { users := [], sessions := [], people := [], relationships := [], events := [] }

/-- Sample registration body. -/
def regAlice : RegisterInput :=
  { username := some "alice", password := some "secret1", email := none, full_name := none }

/-- Sample person body. -/
def pfBob : PersonFields :=
  { given_name := some "Bob", family_name := some "Smith", other_names := none, gender := none,
    birth_date := none, death_date := none, birth_place := none, bio := none, relation := none }

/-- Sample person body for a second person. -/
def pfCarl : PersonFields := { pfBob with given_name := some "Carl" }

/-- Sample relationship body between person 1 and person 2. -/
def relInFather : RelInput :=
  { person1_id := some 1, person2_id := some 2, type := some "father", details := none,
    start_date := none, end_date := none }

/-- Sample event body about person 1. -/
def evBirth : EventInput :=
  { created_by := some 1, person_id := none, title := some "Birth",
    event_date := some "2020-01-01", place := none, description := none }

/-- Sample Users row. -/
def alice : User :=
  { id := 1, username := "alice", password_hash := hash_password "secret1", email := "",
    full_name := "", is_active := true, created_at := "2024", updated_at := "2024" }

/-- Sample Users row for a second user. -/
def bob : User := { alice with id := 2, username := "bob" }

/-- Sample Sessions row of user 1. -/
def sessA : Session :=
  { id := 1, user_id := 1, session_token := "tokA", created_at := "2024", expires_at := "2099" }

/-- Sample Sessions row of user 2. -/
def sessB : Session := { sessA with id := 2, user_id := 2, session_token := "tokB" }

/-- Sample People row owned by user 1. -/
def personAnn : Person :=
  { id := 1, user_id := 1, given_name := some "Ann", family_name := some "Smith",
    other_names := none, gender := none, birth_date := none, death_date := none,
    birth_place := none, bio := none, relation := none, is_deleted := false,
    created_at := "2024", updated_at := "2024" }

/-- Second sample People row owned by user 1. -/
def personBen : Person := { personAnn with id := 2, given_name := some "Ben" }

/-- Sample People row owned by user 2. -/
def personCal : Person :=
  { personAnn with id := 3, user_id := 2, given_name := some "Cal", family_name := some "Jones" }

/-- Sample Relationships row between persons 1 and 2 (both owned by user 1). -/
def relAnnBen : Relationship :=
  { id := 1, person1_id := 1, person2_id := 2, type := "father", details := none,
    start_date := none, end_date := none, created_at := "2024", updated_at := "2024" }

/-- Sample Events row about person 1, owned by user 1. -/
def eventAnn : Event :=
  { id := 1, title := "Birth", event_date := some "2020-01-01", place := "", description := "",
    created_by := 1, user_id := 1, created_at := "2024", updated_at := "2024" }

/-- A populated two-user store used to instantiate the theorems. -/
def sampleDB : DB :=
  { users := [alice, bob], sessions := [sessA, sessB],
    people := [personAnn, personBen, personCal], relationships := [relAnnBen],
    events := [eventAnn] }

/-- Replay of an actual request sequence: register, create a person, record
an event about that person, then soft-delete the person; the pair reports
whether the event invariant held before and after the soft delete. -/
def eventInvariantRun : Except Err (Bool × Bool) := do
  let a ← register regAlice "2024-01-01T00:00:00" DB.empty
  let b ← create_person 1 pfBob "2024-01-02T00:00:00" a.1
  let c ← create_event 1 evBirth "2024-01-03T00:00:00" b.1
  let d ← delete_person 1 1 "2024-01-04T00:00:00" c.1
  pure (eventsConsistent c.1, eventsConsistent d)

/-- Replay of an actual request sequence: register, create two persons,
relate them, then soft-delete one endpoint; the result reports whether
get_relationship still answers the row and what get_relationships lists. -/
def softDeletedEndpointRun : Except Err (Bool × List RelRow) := do
  let a ← register regAlice "2024-01-01T00:00:00" DB.empty
  let b ← create_person 1 pfBob "2024-01-02T00:00:00" a.1
  let c ← create_person 1 pfCarl "2024-01-03T00:00:00" b.1
  let d ← create_relationship 1 relInFather "2024-01-04T00:00:00" c.1
  let e ← delete_person 1 2 "2024-01-05T00:00:00" d.1
  pure ((get_relationship 1 1 e).isOk, get_relationships 1 e)

/-- The output order claimed for list_events, stated on adjacent result rows:
a row with a null event_date never precedes one with a date, dates are
non-increasing, and rows with equal (possibly null) dates have ids in
decreasing order. -/
def specEventOrder (a b : EventRow) : Prop :=
  (b.event_date ≠ none → a.event_date ≠ none) ∧
  (∀ x y, a.event_date = some x → b.event_date = some y → strLt x y = false) ∧
  (a.event_date = b.event_date → b.id ≤ a.id)

/-- sampleDB after soft-deleting person 1 at time 2025. -/
def sampleDBdel : DB :=
  { sampleDB with
      people := [{ personAnn with is_deleted := true, updated_at := "2025" },
                 personBen, personCal] }

/-- sampleDB after update_person 1 1 with pfBob at time 2025. -/
def sampleDBupd : DB :=
  { sampleDB with
      people := [{ personAnn with given_name := some "Bob", updated_at := "2025" },
                 personBen, personCal] }

/-- sampleDB after create_event 1 evBirth at time 2025 (new event id 2). -/
def sampleDBev : DB :=
  { sampleDB with
      events := [eventAnn,
                 { id := 2, title := "Birth", event_date := some "2020-01-01", place := "",
                   description := "", created_by := 1, user_id := 1, created_at := "2025",
                   updated_at := "2025" }] }

/-- sampleDB after logging out the session of user 1. -/
def sampleDBlogout : DB := { sampleDB with sessions := [sessB] }

/-- sampleDB after create_relationship 1 with type Father at time 2025 (new id 2). -/
def sampleDBrel : DB :=
  { sampleDB with
      relationships := [relAnnBen,
                        { id := 2, person1_id := 1, person2_id := 2, type := "father",
                          details := none, start_date := none, end_date := none,
                          created_at := "2025", updated_at := "2025" }] }

/-! ### Order lemmas for the SQLite TEXT comparison -/

theorem charEq_of_toNat_eq {a b : Char} (h : a.toNat = b.toNat) : a = b := by
  cases a; cases b
  simp only [Char.toNat] at h
  congr 1
  exact UInt32.toNat.inj h

theorem strLtChars_irrefl : ∀ l : List Char, strLtChars l l = false
  | [] => rfl
  | a :: as => by simp [strLtChars, strLtChars_irrefl as]

theorem strLtChars_trans :
    ∀ {a b c : List Char}, strLtChars a b = true → strLtChars b c = true → strLtChars a c = true
  | [], _ :: _, _ :: _, _, _ => rfl
  | a :: as, b :: bs, c :: cs, h1, h2 => by
    simp only [strLtChars] at h1 h2 ⊢
    split at h1
    · rename_i hab
      split at h2
      · rename_i hbc
        have : a.toNat < c.toNat := Nat.lt_trans hab hbc
        simp [this]
      · split at h2
        · rename_i hbc
          have : a.toNat < c.toNat := hbc ▸ hab
          simp [this]
        · exact absurd h2 (by simp)
    · split at h1
      · rename_i hab' hab
        split at h2
        · rename_i hbc
          have : a.toNat < c.toNat := hab ▸ hbc
          simp [this]
        · split at h2
          · rename_i hbc
            have hac : a.toNat = c.toNat := hab.trans hbc
            simp [hac, if_neg (by omega : ¬ a.toNat < c.toNat), strLtChars_trans h1 h2]
          · exact absurd h2 (by simp)
      · exact absurd h1 (by simp)

theorem strLtChars_connex :
    ∀ {a b : List Char}, strLtChars a b = false → strLtChars b a = false → a = b
  | [], [], _, _ => rfl
  | [], _ :: _, h1, _ => by simp [strLtChars] at h1
  | _ :: _, [], _, h2 => by simp [strLtChars] at h2
  | a :: as, b :: bs, h1, h2 => by
    simp only [strLtChars] at h1 h2
    by_cases hab : a.toNat < b.toNat
    · simp [hab] at h1
    · by_cases hba : b.toNat < a.toNat
      · simp [hba] at h2
      · have heq : a.toNat = b.toNat := by omega
        rw [if_neg hab, if_pos heq] at h1
        rw [if_neg hba, if_pos heq.symm] at h2
        rw [charEq_of_toNat_eq heq, strLtChars_connex h1 h2]

theorem strLt_irrefl (s : String) : strLt s s = false := strLtChars_irrefl s.data

theorem strLt_trans {a b c : String} (h1 : strLt a b = true) (h2 : strLt b c = true) :
    strLt a c = true :=
  @strLtChars_trans a.data b.data c.data h1 h2

theorem strLt_asymm {a b : String} (h : strLt a b = true) : strLt b a = false := by
  cases hba : strLt b a
  · rfl
  · have habs : strLt a a = true := strLt_trans h hba
    rw [strLt_irrefl] at habs
    exact absurd habs (by simp)

theorem strLt_connex {a b : String} (h1 : strLt a b = false) (h2 : strLt b a = false) : a = b := by
  have hd : a.data = b.data := @strLtChars_connex a.data b.data h1 h2
  cases a; cases b
  exact congrArg String.mk hd

/-! ### The list_events output order is total and transitive -/

theorem eventLe_total (a b : Event) : eventLe a b ∨ eventLe b a := by
  unfold eventLe
  rcases ha : a.event_date with _ | x <;> rcases hb : b.event_date with _ | y <;>
    simp only [ha, hb]
  · exact Nat.le_total b.id a.id
  · exact Or.inr trivial
  · exact Or.inl trivial
  · by_cases hxy : x = y
    · subst hxy
      rw [if_pos rfl, if_pos rfl]
      exact Nat.le_total b.id a.id
    · rw [if_neg hxy, if_neg (fun h => hxy h.symm)]
      cases hlt : strLt x y
      · exact Or.inl rfl
      · exact Or.inr (strLt_asymm hlt)

theorem eventLe_trans (a b c : Event) (hab : eventLe a b) (hbc : eventLe b c) : eventLe a c := by
  unfold eventLe at hab hbc ⊢
  rcases ha : a.event_date with _ | x <;> rcases hb : b.event_date with _ | y <;>
    rcases hc : c.event_date with _ | z <;> simp only [ha, hb, hc] at hab hbc ⊢
  · exact Nat.le_trans hbc hab
  · by_cases hxy : x = y
    · subst hxy
      rw [if_pos rfl] at hab
      by_cases hxz : x = z
      · subst hxz
        rw [if_pos rfl] at hbc ⊢
        exact Nat.le_trans hbc hab
      · rw [if_neg hxz] at hbc ⊢
        exact hbc
    · rw [if_neg hxy] at hab
      by_cases hyz : y = z
      · subst hyz
        rw [if_neg hxy]
        exact hab
      · rw [if_neg hyz] at hbc
        by_cases hxz : x = z
        · subst hxz
          exact absurd (strLt_connex hab hbc) hxy
        · rw [if_neg hxz]
          have hyx : strLt y x = true := by
            cases hlt : strLt y x
            · exact absurd (strLt_connex hab hlt) hxy
            · rfl
          have hzy : strLt z y = true := by
            cases hlt : strLt z y
            · exact absurd (strLt_connex hbc hlt) hyz
            · rfl
          exact strLt_asymm (strLt_trans hzy hyx)

theorem eventToRow_date (db : DB) (e : Event) : (eventToRow db e).event_date = e.event_date := rfl

theorem eventToRow_id (db : DB) (e : Event) : (eventToRow db e).id = e.id := rfl

theorem eventLe_specEventOrder (db : DB) (a b : Event) (hab : eventLe a b) :
    specEventOrder (eventToRow db a) (eventToRow db b) := by
  unfold eventLe at hab
  unfold specEventOrder
  rw [eventToRow_date, eventToRow_date, eventToRow_id, eventToRow_id]
  rcases ha : a.event_date with _ | x <;> rcases hb : b.event_date with _ | y <;>
    simp only [ha, hb] at hab ⊢
  · refine ⟨?_, ?_, ?_⟩
    · intro h
      exact h
    · intro x' y' hx' hy'
      exact nomatch hx'
    · intro h
      exact hab
  · refine ⟨?_, ?_, ?_⟩
    · intro h
      exact absurd rfl h
    · intro x' y' hx' hy'
      exact nomatch hy'
    · intro h
      exact nomatch h
  · refine ⟨?_, ?_, ?_⟩
    · intro h
      exact fun hc => nomatch hc
    · intro x' y' hx' hy'
      cases Option.some.inj hx'
      cases Option.some.inj hy'
      by_cases hxy : x = y
      · subst hxy
        exact strLt_irrefl x
      · rw [if_neg hxy] at hab
        exact hab
    · intro h
      have hxy := Option.some.inj h
      subst hxy
      rw [if_pos rfl] at hab
      exact hab

/-! ### Small list facts used below -/

theorem flatMap_filter_eq {α β : Type} (P : α → Bool) (g : α → List β) :
    ∀ l : List α, (∀ a ∈ l, P a = false → g a = []) → (l.filter P).flatMap g = l.flatMap g
  | [], _ => rfl
  | a :: l, h => by
    have htail := flatMap_filter_eq P g l (fun x hx => h x (List.mem_cons_of_mem a hx))
    by_cases hP : P a = true
    · simp [List.filter_cons, hP, htail]
    · have ha : g a = [] := h a (List.mem_cons_self a l) (by simpa using hP)
      simp [List.filter_cons, hP, ha, htail]

theorem countP_key_le_one {α β : Type} [DecidableEq β] (f : α → β) (b : β) :
    ∀ l : List α, (l.map f).Nodup → l.countP (fun a => f a == b) ≤ 1
  | [], _ => by simp
  | a :: l, h => by
    rw [List.map_cons, List.nodup_cons] at h
    rw [List.countP_cons]
    by_cases hab : f a = b
    · have hz : l.countP (fun x => f x == b) = 0 := by
        rw [List.countP_eq_zero]
        intro x hx
        simp only [beq_iff_eq]
        intro hfx
        exact h.1 (by rw [hab, ← hfx]; exact List.mem_map_of_mem f hx)
      simp [hab, hz]
    · simp only [beq_iff_eq, if_neg hab]
      exact Nat.le_trans (Nat.le_of_eq (Nat.add_zero _)) (countP_key_le_one f b l h.2)

/-! ### Decompositions of the SQL joins -/

theorem mem_sessionUserRows {token now : String} {db : DB} {cu : CurrentUser} :
    cu ∈ sessionUserRows token now db ↔
      ∃ s ∈ db.sessions, s.session_token = token ∧ strLt now s.expires_at = true ∧
        ∃ u ∈ db.users, u.id = s.user_id ∧ u.is_active = true ∧ cu = projUser u := by
  unfold sessionUserRows sessionRowsFor
  simp only [List.mem_flatMap, List.mem_map, List.mem_filter, Bool.and_eq_true, beq_iff_eq]
  constructor
  · rintro ⟨s, hs, u, ⟨hu, ⟨⟨htok, hexp⟩, hid⟩, hact⟩, hcu⟩
    exact ⟨s, hs, htok, hexp, u, hu, hid, hact, hcu.symm⟩
  · rintro ⟨s, hs, htok, hexp, u, hu, hid, hact, hcu⟩
    exact ⟨s, hs, u, ⟨hu, ⟨⟨htok, hexp⟩, hid⟩, hact⟩, hcu.symm⟩

theorem mem_relOwnedJoin {caller rid : Nat} {db : DB} {t : Relationship × Person × Person} :
    t ∈ relOwnedJoin caller rid db ↔
      t.1 ∈ db.relationships ∧ t.2.1 ∈ db.people ∧ t.2.2 ∈ db.people ∧
      t.1.person1_id = t.2.1.id ∧ t.1.person2_id = t.2.2.id ∧ t.1.id = rid ∧
      t.2.1.user_id = caller ∧ t.2.2.user_id = caller := by
  unfold relOwnedJoin
  simp only [List.mem_flatMap, List.mem_filterMap, Option.ite_none_right_eq_some,
    Option.some.injEq, Bool.and_eq_true, beq_iff_eq]
  constructor
  · rintro ⟨r, hr, p1, hp1, p2, hp2, ⟨⟨⟨⟨h1, h2⟩, h3⟩, h4⟩, h5⟩, ht⟩
    subst ht
    exact ⟨hr, hp1, hp2, h1, h2, h3, h4, h5⟩
  · rintro ⟨hr, hp1, hp2, h1, h2, h3, h4, h5⟩
    exact ⟨t.1, hr, t.2.1, hp1, t.2.2, hp2, ⟨⟨⟨⟨h1, h2⟩, h3⟩, h4⟩, h5⟩, rfl⟩

theorem mem_relListJoin {caller : Nat} {db : DB} {t : Relationship × Person × Person} :
    t ∈ relListJoin caller db ↔
      t.1 ∈ db.relationships ∧ t.2.1 ∈ db.people ∧ t.2.2 ∈ db.people ∧
      t.1.person1_id = t.2.1.id ∧ t.1.person2_id = t.2.2.id ∧
      t.2.1.user_id = caller ∧ t.2.2.user_id = caller ∧
      t.2.1.is_deleted = false ∧ t.2.2.is_deleted = false := by
  unfold relListJoin
  simp only [List.mem_flatMap, List.mem_filterMap, Option.ite_none_right_eq_some,
    Option.some.injEq, Bool.and_eq_true, beq_iff_eq, Bool.not_eq_true']
  constructor
  · rintro ⟨r, hr, p1, hp1, p2, hp2, ⟨⟨⟨⟨⟨h1, h2⟩, h3⟩, h4⟩, h5⟩, h6⟩, ht⟩
    subst ht
    exact ⟨hr, hp1, hp2, h1, h2, h3, h4, h5, h6⟩
  · rintro ⟨hr, hp1, hp2, h1, h2, h3, h4, h5, h6⟩
    exact ⟨t.1, hr, t.2.1, hp1, t.2.2, hp2, ⟨⟨⟨⟨⟨h1, h2⟩, h3⟩, h4⟩, h5⟩, h6⟩, rfl⟩

/-! ### Facts about register -/

theorem register_ok_inv {input : RegisterInput} {now : String} {db db1 : DB} {uid : Nat}
    (h : register input now db = Except.ok (db1, uid)) :
    (strTrim (orEmpty input.username) == "") = false ∧
    db1.users = db.users ++
      [{ id := nextId (db.users.map (fun u => u.id)),
         username := strTrim (orEmpty input.username),
         password_hash := hash_password (orEmpty input.password),
         email := strTrim (orEmpty input.email),
         full_name := strTrim (orEmpty input.full_name),
         is_active := true, created_at := now, updated_at := now }] := by
  simp only [register] at h
  split at h
  · exact absurd h (by simp)
  · split at h
    · exact absurd h (by simp)
    · rename_i hc1 hc2
      split at h
      · exact absurd h (by simp)
      · have hpair := Except.ok.inj h
        have hdb1 : db1 = _ := (congrArg Prod.fst hpair).symm
        constructor
        · cases hu : (strTrim (orEmpty input.username) == "") with
          | false => rfl
          | true =>
            have hor : (strTrim (orEmpty input.username) == "" ||
                orEmpty input.password == "") = true := by
              rw [hu, Bool.true_or]
            exact absurd hor hc1
        · rw [hdb1]

/-- Claim C7: once a username has been registered, registering it again (with
an otherwise valid password) answers the Conflict outcome, Username already
exists; the failed call carries no new store, so no second Users row is
created. -/
theorem claim7_duplicate_username_conflict
    (in1 in2 : RegisterInput) (now1 now2 : String) (db db1 : DB) (uid : Nat)
    (h1 : register in1 now1 db = Except.ok (db1, uid))
    (hsame : strTrim (orEmpty in2.username) = strTrim (orEmpty in1.username))
    (hpw : (orEmpty in2.password == "") = false)
    (hpwlen : ¬ (orEmpty in2.password).length < 6) :
    register in2 now2 db1 = Except.error (Err.conflict "Username already exists") := by
  obtain ⟨hu1, husers⟩ := register_ok_inv h1
  simp only [register, hsame, hu1, hpw, Bool.or_self, Bool.or_false, Bool.false_or]
  rw [if_neg (by simp), if_neg hpwlen]
  have hsome :
      (db1.users.find? (fun u => u.username == strTrim (orEmpty in1.username))).isSome = true := by
    rw [List.find?_isSome, husers]
    refine ⟨_, List.mem_append_right _ (List.mem_singleton_self _), ?_⟩
    simp
  obtain ⟨w, hw⟩ := Option.isSome_iff_exists.mp hsome
  rw [hw]

/-! ### Facts about the Person Registry -/

/-- After the soft delete of claim C5, the shared visibility filter of
get_person, update_person and delete_person matches no row. -/
theorem deleted_find_none (caller : Nat) (p : Person) (now : String) (db : DB)
    (hnd : (db.people.map (fun q => q.id)).Nodup)
    (hp : p ∈ db.people) (hown : p.user_id = caller) :
    (db.people.map (fun r =>
        if r.id == p.id && r.user_id == caller then
          { r with is_deleted := true, updated_at := now }
        else r)).find? (personMatch caller p.id) = none := by
  rw [List.find?_eq_none]
  intro x hx
  rw [List.mem_map] at hx
  obtain ⟨r, hr, hfr⟩ := hx
  by_cases hid : r.id = p.id
  · have hrp : r = p := List.inj_on_of_nodup_map hnd hr hp hid
    rw [← hfr, hrp]
    unfold personMatch
    simp [hown]
  · rw [← hfr, if_neg (by simp [hid])]
    unfold personMatch
    simp [hid]

/-- Claim C5: soft delete marks the matching row deleted and stamps
updated_at while the row count is unchanged (the row still physically
exists); afterwards neither get_person nor get_all_people under the same
caller answers that Person, and a second soft delete fails NotFound. -/
theorem claim5_soft_delete_semantics
    (caller : Nat) (p : Person) (now now2 : String) (db : DB)
    (hnd : (db.people.map (fun q => q.id)).Nodup)
    (hp : p ∈ db.people) (hown : p.user_id = caller) (hdel : p.is_deleted = false) :
    ∃ db1, delete_person caller p.id now db = Except.ok db1 ∧
      { p with is_deleted := true, updated_at := now } ∈ db1.people ∧
      db1.people.length = db.people.length ∧
      get_person caller p.id db1 = Except.error Err.notFound ∧
      (∀ q ∈ get_all_people caller db1, q.id ≠ p.id) ∧
      delete_person caller p.id now2 db1 = Except.error Err.notFound := by
  have hmatch : personMatch caller p.id p = true := by
    unfold personMatch
    simp [hown, hdel]
  obtain ⟨q, hq⟩ := Option.isSome_iff_exists.mp (List.find?_isSome.mpr ⟨p, hp, hmatch⟩)
  refine ⟨{ db with people := db.people.map (fun r =>
      if r.id == p.id && r.user_id == caller then { r with is_deleted := true, updated_at := now }
      else r) }, ?_, ?_, by simp, ?_, ?_, ?_⟩
  · unfold delete_person
    rw [hq]
  · have hm := List.mem_map_of_mem (fun r =>
      if r.id == p.id && r.user_id == caller then { r with is_deleted := true, updated_at := now }
      else r) hp
    simpa [hown] using hm
  · unfold get_person
    rw [deleted_find_none caller p now db hnd hp hown]
  · intro q' hq'
    unfold get_all_people at hq'
    have hmem := (List.perm_insertionSort personLe _).mem_iff.mp hq'
    rw [List.mem_filter] at hmem
    obtain ⟨hqm, hqc⟩ := hmem
    rw [List.mem_map] at hqm
    obtain ⟨r, hr, hfr⟩ := hqm
    intro hqid
    by_cases hid : r.id = p.id
    · have hrp : r = p := List.inj_on_of_nodup_map hnd hr hp hid
      rw [← hfr, hrp] at hqc
      simp [hown] at hqc
    · rw [← hfr] at hqid
      simp [hid] at hqid
  · unfold delete_person
    rw [deleted_find_none caller p now db hnd hp hown]

/-- Claim C9: update_person fails NotFound exactly when get_person does; on
success it overwrites the nine mutable columns with the supplied values and
stamps updated_at, while the row keeps its id, user_id, is_deleted and
created_at, no row is added or removed, rows with other ids are untouched,
and no other table changes. -/
theorem claim9_update_person_frame
    (caller pid : Nat) (fields : PersonFields) (now : String) (db : DB) :
    (update_person caller pid fields now db = Except.error Err.notFound ↔
      get_person caller pid db = Except.error Err.notFound) ∧
    (∀ p db1, get_person caller pid db = Except.ok p →
      update_person caller pid fields now db = Except.ok db1 →
      db1.users = db.users ∧ db1.sessions = db.sessions ∧
      db1.relationships = db.relationships ∧ db1.events = db.events ∧
      db1.people.length = db.people.length ∧
      { p with given_name := fields.given_name, family_name := fields.family_name,
               other_names := fields.other_names, gender := fields.gender,
               birth_date := fields.birth_date, death_date := fields.death_date,
               birth_place := fields.birth_place, bio := fields.bio,
               relation := fields.relation, updated_at := now } ∈ db1.people ∧
      (∀ q ∈ db.people, q.id ≠ pid → q ∈ db1.people)) := by
  constructor
  · unfold update_person get_person
    cases hf : db.people.find? (personMatch caller pid) <;> simp
  · intro p db1 hget hupd
    unfold get_person at hget
    unfold update_person at hupd
    cases hf : db.people.find? (personMatch caller pid) with
    | none =>
      rw [hf] at hget
      exact absurd hget (by simp)
    | some r =>
      rw [hf] at hget hupd
      have hrp : r = p := Except.ok.inj hget
      have hdb1 : db1 = _ := (Except.ok.inj hupd).symm
      subst hdb1
      have hpmem : p ∈ db.people := hrp ▸ List.mem_of_find?_eq_some hf
      have hpm : personMatch caller pid p = true := hrp ▸ List.find?_some hf
      unfold personMatch at hpm
      rw [Bool.and_eq_true, Bool.and_eq_true] at hpm
      obtain ⟨⟨hpid, hpdel⟩, hpu⟩ := hpm
      refine ⟨rfl, rfl, rfl, rfl, by simp, ?_, ?_⟩
      · refine List.mem_map.mpr ⟨p, hpmem, ?_⟩
        show (if (p.id == pid && p.user_id == caller) = true then _ else p) = _
        rw [if_pos (by rw [hpid, hpu]; rfl)]
      · intro q hq hqid
        refine List.mem_map.mpr ⟨q, hq, ?_⟩
        show (if (q.id == pid && q.user_id == caller) = true then _ else q) = q
        rw [if_neg (by simp [hqid])]

/-! ### Session resolution and revocation -/

theorem get_current_user_bearer {h now : String} {db : DB} (hb : strHasBearer h = true) :
    get_current_user (some h) now db = (sessionUserRows (strDropBearer h) now db).head? := by
  simp [get_current_user, hb]

theorem get_current_user_no_bearer {h now : String} {db : DB} (hb : ¬ strHasBearer h = true) :
    get_current_user (some h) now db = none := by
  simp [get_current_user, hb]

/-- Claim C4: session resolution answers a user exactly when the credential
carries the Bearer prefix, the stripped token matches a stored session whose
expires_at lies strictly after now, and the owning user is active; in every
other case it answers none.  Any answered value is the four-field projection
(id, username, email, full_name) of a stored active user, so it never
carries the password hash. -/
theorem claim4_session_resolution (authHeader : Option String) (now : String) (db : DB) :
    ((get_current_user authHeader now db).isSome = true ↔
      ∃ h, authHeader = some h ∧ strHasBearer h = true ∧
        ∃ s ∈ db.sessions, s.session_token = strDropBearer h ∧
          strLt now s.expires_at = true ∧
          ∃ u ∈ db.users, u.id = s.user_id ∧ u.is_active = true) ∧
    (∀ cu, get_current_user authHeader now db = some cu →
      ∃ u ∈ db.users, u.is_active = true ∧ cu = projUser u) := by
  cases authHeader with
  | none =>
    constructor
    · simp [get_current_user]
    · intro cu hcu
      simp [get_current_user] at hcu
  | some h =>
    by_cases hb : strHasBearer h = true
    · have hgc : get_current_user (some h) now db =
          (sessionUserRows (strDropBearer h) now db).head? := by
        simp [get_current_user, hb]
      constructor
      · rw [hgc]
        constructor
        · intro hs
          obtain ⟨cu, hcu⟩ :=
            List.exists_mem_of_ne_nil _ (List.head?_isSome.mp hs)
          obtain ⟨s, hsmem, htok, hexp, u, humem, hid, hact, _⟩ :=
            mem_sessionUserRows.mp hcu
          exact ⟨h, rfl, hb, s, hsmem, htok, hexp, u, humem, hid, hact⟩
        · rintro ⟨h2, hh2, hb2, s, hsmem, htok, hexp, u, humem, hid, hact⟩
          cases Option.some.inj hh2
          exact List.head?_isSome.mpr (List.ne_nil_of_mem
            (mem_sessionUserRows.mpr ⟨s, hsmem, htok, hexp, u, humem, hid, hact, rfl⟩))
      · intro cu hcu
        rw [hgc] at hcu
        obtain ⟨_, _, _, _, u, humem, _, hact, hproj⟩ :=
          mem_sessionUserRows.mp (List.mem_of_mem_head? hcu)
        exact ⟨u, humem, hact, hproj⟩
    · have hgc : get_current_user (some h) now db = none := by
        simp [get_current_user, hb]
      constructor
      · rw [hgc]
        constructor
        · intro hs
          simp at hs
        · rintro ⟨h2, hh2, hb2, _⟩
          cases Option.some.inj hh2
          exact absurd hb2 hb
      · intro cu hcu
        rw [hgc] at hcu
        exact absurd hcu (by simp)

/-- Claim C10: the logout body always reports success; it removes exactly the
Sessions rows carrying the presented token (at most one, by token
uniqueness), keeps every other Sessions row and every other table, any other
token that resolved before still resolves to the same user afterwards, and
presenting a token matching no stored session leaves the store unchanged
while still succeeding. -/
theorem claim10_logout_revoke_frame (authHeader : String) (db : DB)
    (htok : (db.sessions.map (fun s => s.session_token)).Nodup) :
    (∃ db1, logout authHeader db = Except.ok db1) ∧
    (∀ db1, logout authHeader db = Except.ok db1 →
      db1.users = db.users ∧ db1.people = db.people ∧
      db1.relationships = db.relationships ∧ db1.events = db.events ∧
      (∀ s ∈ db.sessions, s.session_token ≠ strDropBearer authHeader → s ∈ db1.sessions) ∧
      (∀ s ∈ db1.sessions, s ∈ db.sessions) ∧
      db.sessions.length ≤ db1.sessions.length + 1 ∧
      (∀ h2 now2 cu, strDropBearer h2 ≠ strDropBearer authHeader →
        get_current_user (some h2) now2 db = some cu →
        get_current_user (some h2) now2 db1 = some cu) ∧
      ((∀ s ∈ db.sessions, s.session_token ≠ strDropBearer authHeader) → db1 = db)) := by
  constructor
  · unfold logout
    split
    · exact ⟨_, rfl⟩
    · exact ⟨_, rfl⟩
  · intro db1 hok
    unfold logout at hok
    by_cases hb : strHasBearer authHeader = true
    · rw [if_pos hb] at hok
      set t := strDropBearer authHeader with ht
      have hdb1 : db1 = { db with sessions := db.sessions.filter (fun s => !(s.session_token == t)) } :=
        (Except.ok.inj hok).symm
      subst hdb1
      refine ⟨rfl, rfl, rfl, rfl, ?_, ?_, ?_, ?_, ?_⟩
      · intro s hs hne
        exact List.mem_filter.mpr ⟨hs, by simp [hne]⟩
      · intro s hs
        exact (List.mem_filter.mp hs).1
      · have hsplit := List.length_eq_countP_add_countP (fun s => !(s.session_token == t)) db.sessions
        have hcong : db.sessions.countP (fun s => decide ¬((!(s.session_token == t)) = true)) = db.sessions.countP (fun s => s.session_token == t) := by
          apply List.countP_congr
          intro s _
          cases hst : (s.session_token == t) <;> simp [hst]
        have hbound := countP_key_le_one (fun s : Session => s.session_token) t db.sessions htok
        have hbound2 : db.sessions.countP (fun s => s.session_token == t) ≤ 1 := by
          simpa using hbound
        rw [List.countP_eq_length_filter] at hsplit
        simp only [hsplit, hcong]
        omega
      · intro h2 now2 cu hne hres
        have hb2 : strHasBearer h2 = true := by
          by_contra hb2
          rw [get_current_user_no_bearer hb2] at hres
          exact absurd hres (by simp)
        have hrows : sessionUserRows (strDropBearer h2) now2 { db with sessions := db.sessions.filter (fun s => !(s.session_token == t)) } = sessionUserRows (strDropBearer h2) now2 db := by
          unfold sessionUserRows
          apply flatMap_filter_eq
          intro s _ hkeep
          have hst : s.session_token = t := by
            cases hst : (s.session_token == t) with
            | false => rw [hst] at hkeep; exact absurd hkeep (by simp)
            | true => exact beq_iff_eq.mp hst
          have hnil : db.users.filter (fun u => s.session_token == strDropBearer h2 && strLt now2 s.expires_at && u.id == s.user_id && u.is_active) = [] := by
            apply List.filter_eq_nil_iff.mpr
            intro u _
            have hfalse : (s.session_token == strDropBearer h2) = false := by
              cases hq : (s.session_token == strDropBearer h2) with
              | false => rfl
              | true =>
                have hteq : t = strDropBearer h2 := by
                  rw [← hst]
                  exact beq_iff_eq.mp hq
                exact absurd hteq.symm hne
            simp [hfalse]
          unfold sessionRowsFor
          rw [hnil, List.map_nil]
        rw [get_current_user_bearer hb2] at hres
        rw [get_current_user_bearer hb2, hrows]
        exact hres
      · intro hall
        have hfix : db.sessions.filter (fun s => !(s.session_token == t)) = db.sessions :=
          List.filter_eq_self.mpr (fun s hs => by simp [hall s hs])
        rw [hfix]
    · rw [if_neg hb] at hok
      have hdb1 : db1 = db := (Except.ok.inj hok).symm
      subst hdb1
      refine ⟨rfl, rfl, rfl, rfl, fun s hs _ => hs, fun s hs => hs, Nat.le_succ _,
        fun h2 now2 cu _ hres => hres, fun _ => rfl⟩

/-! ### Relationship creation -/

/-- Claim C3: create_relationship runs its four checks in source order —
truthy endpoint ids, distinct endpoints, normalized type inside the closed
set when non-empty, and exactly two matching non-deleted People rows owned
by the caller — each failing with the ValidationError message of the
source, and appends the row only when all four pass, storing the stripped
lower-cased type; hence equal endpoints always draw a ValidationError,
type cousin is rejected, and type Father normalizes to father. -/
theorem claim3_create_relationship_validation
    (caller : Nat) (input : RelInput) (now : String) (db : DB) :
    ((!truthyNat input.person1_id || !truthyNat input.person2_id) = true →
      create_relationship caller input now db =
        Except.error (Err.validation "Both people are required")) ∧
    ((!truthyNat input.person1_id || !truthyNat input.person2_id) = false →
      (input.person1_id == input.person2_id) = true →
      create_relationship caller input now db =
        Except.error (Err.validation "A person cannot have a relationship with themselves")) ∧
    ((!truthyNat input.person1_id || !truthyNat input.person2_id) = false →
      (input.person1_id == input.person2_id) = false →
      (!(normType input.type == "") && !(RELATION_TYPES.contains (normType input.type))) = true →
      create_relationship caller input now db =
        Except.error (Err.validation "Invalid relationship type")) ∧
    ((!truthyNat input.person1_id || !truthyNat input.person2_id) = false →
      (input.person1_id == input.person2_id) = false →
      (!(normType input.type == "") && !(RELATION_TYPES.contains (normType input.type))) = false →
      (ownedPairCount caller (input.person1_id.getD 0) (input.person2_id.getD 0) db == 2) = false →
      create_relationship caller input now db =
        Except.error (Err.validation "Both people must exist and belong to the current user")) ∧
    ((!truthyNat input.person1_id || !truthyNat input.person2_id) = false →
      (input.person1_id == input.person2_id) = false →
      (!(normType input.type == "") && !(RELATION_TYPES.contains (normType input.type))) = false →
      (ownedPairCount caller (input.person1_id.getD 0) (input.person2_id.getD 0) db == 2) = true →
      create_relationship caller input now db =
        Except.ok ({ db with relationships := db.relationships ++
            [{ id := nextId (db.relationships.map (fun r => r.id)),
               person1_id := input.person1_id.getD 0,
               person2_id := input.person2_id.getD 0,
               type := normType input.type, details := input.details,
               start_date := input.start_date, end_date := input.end_date,
               created_at := now, updated_at := now }] },
          nextId (db.relationships.map (fun r => r.id)))) ∧
    (input.person1_id = input.person2_id →
      ∃ msg, create_relationship caller input now db = Except.error (Err.validation msg)) ∧
    (input.type = some "cousin" →
      (!truthyNat input.person1_id || !truthyNat input.person2_id) = false →
      (input.person1_id == input.person2_id) = false →
      create_relationship caller input now db =
        Except.error (Err.validation "Invalid relationship type")) ∧
    (input.type = some "Father" → normType input.type = "father") := by
  have part1 : (!truthyNat input.person1_id || !truthyNat input.person2_id) = true →
      create_relationship caller input now db =
        Except.error (Err.validation "Both people are required") := by
    intro h1
    simp only [create_relationship]
    rw [if_pos h1]
  have part2 : (!truthyNat input.person1_id || !truthyNat input.person2_id) = false →
      (input.person1_id == input.person2_id) = true →
      create_relationship caller input now db =
        Except.error (Err.validation "A person cannot have a relationship with themselves") := by
    intro h1 h2
    simp only [create_relationship]
    rw [if_neg (by simp [h1]), if_pos h2]
  have part3 : (!truthyNat input.person1_id || !truthyNat input.person2_id) = false →
      (input.person1_id == input.person2_id) = false →
      (!(normType input.type == "") && !(RELATION_TYPES.contains (normType input.type))) = true →
      create_relationship caller input now db =
        Except.error (Err.validation "Invalid relationship type") := by
    intro h1 h2 h3
    simp only [create_relationship]
    rw [if_neg (by simp [h1]), if_neg (by simp [h2]), if_pos h3]
  have part4 : (!truthyNat input.person1_id || !truthyNat input.person2_id) = false →
      (input.person1_id == input.person2_id) = false →
      (!(normType input.type == "") && !(RELATION_TYPES.contains (normType input.type))) = false →
      (ownedPairCount caller (input.person1_id.getD 0) (input.person2_id.getD 0) db == 2) = false →
      create_relationship caller input now db =
        Except.error (Err.validation "Both people must exist and belong to the current user") := by
    intro h1 h2 h3 h4
    simp only [create_relationship]
    rw [if_neg (by simp [h1]), if_neg (by simp [h2]), if_neg (by rw [h3]; simp),
      if_pos (by rw [h4]; rfl)]
  have part5 : (!truthyNat input.person1_id || !truthyNat input.person2_id) = false →
      (input.person1_id == input.person2_id) = false →
      (!(normType input.type == "") && !(RELATION_TYPES.contains (normType input.type))) = false →
      (ownedPairCount caller (input.person1_id.getD 0) (input.person2_id.getD 0) db == 2) = true →
      create_relationship caller input now db =
        Except.ok ({ db with relationships := db.relationships ++
            [{ id := nextId (db.relationships.map (fun r => r.id)),
               person1_id := input.person1_id.getD 0,
               person2_id := input.person2_id.getD 0,
               type := normType input.type, details := input.details,
               start_date := input.start_date, end_date := input.end_date,
               created_at := now, updated_at := now }] },
          nextId (db.relationships.map (fun r => r.id))) := by
    intro h1 h2 h3 h4
    simp only [create_relationship]
    rw [if_neg (by simp [h1]), if_neg (by simp [h2]), if_neg (by rw [h3]; simp),
      if_neg (by rw [h4]; simp)]
  refine ⟨part1, part2, part3, part4, part5, ?_, ?_, ?_⟩
  · intro heq
    cases h1 : (!truthyNat input.person1_id || !truthyNat input.person2_id) with
    | true => exact ⟨_, part1 h1⟩
    | false => exact ⟨_, part2 h1 (beq_iff_eq.mpr heq)⟩
  · intro htype h1 h2
    apply part3 h1 h2
    rw [htype]
    decide
  · intro htype
    rw [htype]
    decide

/-! ### Ownership isolation -/

/-- Claim C1: with distinct users u1 and u2 and well-formed ids, a Person,
a Relationship (both endpoints owned by u1) and an Event created under u1
are invisible to u2: every get, update and delete of the Person Registry,
Relationship Graph and Event Ledger invoked with u2's identity and the
object's id answers NotFound, and the erroring call carries no new store,
so the object is not modified. -/
theorem claim1_ownership_isolation
    (u1 u2 : Nat) (db : DB) (p q1 q2 : Person) (r : Relationship) (ev : Event)
    (pf : PersonFields) (ri : RelInput) (ei : EventInput) (now : String)
    (hu : u1 ≠ u2)
    (hndP : (db.people.map (fun x => x.id)).Nodup)
    (hndR : (db.relationships.map (fun x => x.id)).Nodup)
    (hndE : (db.events.map (fun x => x.id)).Nodup)
    (hp : p ∈ db.people) (hpo : p.user_id = u1)
    (hr : r ∈ db.relationships)
    (hq1 : q1 ∈ db.people) (hq1i : q1.id = r.person1_id) (hq1o : q1.user_id = u1)
    (hq2 : q2 ∈ db.people) (hq2i : q2.id = r.person2_id) (hq2o : q2.user_id = u1)
    (he : ev ∈ db.events) (heo : ev.user_id = u1)
    (hei1 : truthyNat (pickPerson ei) = true)
    (hei2 : (strTrim (orEmpty ei.title) == "") = false) :
    get_person u2 p.id db = Except.error Err.notFound ∧
    update_person u2 p.id pf now db = Except.error Err.notFound ∧
    delete_person u2 p.id now db = Except.error Err.notFound ∧
    get_relationship u2 r.id db = Except.error Err.notFound ∧
    update_relationship u2 r.id ri now db = Except.error Err.notFound ∧
    delete_relationship u2 r.id db = Except.error Err.notFound ∧
    get_event u2 ev.id db = Except.error Err.notFound ∧
    update_event u2 ev.id ei now db = Except.error Err.notFound ∧
    delete_event u2 ev.id db = Except.error Err.notFound := by
  have hfindP : db.people.find? (personMatch u2 p.id) = none := by
    rw [List.find?_eq_none]
    intro x hx
    unfold personMatch
    intro hc
    rw [Bool.and_eq_true, Bool.and_eq_true] at hc
    obtain ⟨⟨hxid, _⟩, hxu⟩ := hc
    have hxp : x = p := List.inj_on_of_nodup_map hndP hx hp (beq_iff_eq.mp hxid)
    rw [hxp, hpo] at hxu
    exact hu (beq_iff_eq.mp hxu)
  have hjoin : relOwnedJoin u2 r.id db = [] := by
    rw [List.eq_nil_iff_forall_not_mem]
    intro tr htr
    obtain ⟨h1m, h2m, _, he1, _, hid, ho1, _⟩ := mem_relOwnedJoin.mp htr
    have hr1 : tr.1 = r := List.inj_on_of_nodup_map hndR h1m hr hid
    have hp1 : tr.2.1 = q1 :=
      List.inj_on_of_nodup_map hndP h2m hq1 (by rw [← he1, hr1, hq1i])
    rw [hp1, hq1o] at ho1
    exact hu ho1
  have hfindE : db.events.find? (fun e => e.id == ev.id && e.user_id == u2) = none := by
    rw [List.find?_eq_none]
    intro x hx hc
    rw [Bool.and_eq_true] at hc
    obtain ⟨hxid, hxu⟩ := hc
    have hxe : x = ev := List.inj_on_of_nodup_map hndE hx he (beq_iff_eq.mp hxid)
    rw [hxe, heo] at hxu
    exact hu (beq_iff_eq.mp hxu)
  refine ⟨?_, ?_, ?_, ?_, ?_, ?_, ?_, ?_, ?_⟩
  · unfold get_person
    rw [hfindP]
  · unfold update_person
    rw [hfindP]
  · unfold delete_person
    rw [hfindP]
  · unfold get_relationship
    rw [hjoin]
    rfl
  · simp only [update_relationship]
    rw [hjoin, List.head?_nil, if_pos rfl]
  · simp only [delete_relationship]
    rw [hjoin, List.head?_nil, if_pos rfl]
  · unfold get_event
    rw [hfindE]
  · simp only [update_event]
    rw [if_neg (by simp [hei1, hei2]), hfindE]
  · simp only [delete_event]
    have hfix : db.events.filter (fun e => !(e.id == ev.id && e.user_id == u2)) = db.events := by
      apply List.filter_eq_self.mpr
      intro e hemem
      have hne := List.find?_eq_none.mp hfindE e hemem
      cases hc : (e.id == ev.id && e.user_id == u2) with
      | false => rfl
      | true => exact absurd hc hne
    rw [hfix, if_pos (by simp)]

/-! ### The event list -/

/-- Claim C8: list_events answers exactly the Events whose user_id is the
caller, each joined to the subject's display name, and adjacent rows obey
the claimed order: null event_date only after all dated rows, dates
non-increasing, ids decreasing on equal dates. -/
theorem claim8_list_events_filter_and_order (caller : Nat) (db : DB) :
    (list_events caller db).Perm
      ((db.events.filter (fun e => e.user_id == caller)).map (eventToRow db)) ∧
    List.Pairwise specEventOrder (list_events caller db) := by
  constructor
  · exact List.Perm.map (eventToRow db) (List.perm_insertionSort eventLe _)
  · exact List.Pairwise.map (eventToRow db) (fun a b hab => eventLe_specEventOrder db a b hab)
      (@List.sorted_insertionSort Event eventLe _ ⟨eventLe_total⟩ ⟨eventLe_trans⟩ _)

/-! ### Relationship get versus list filtering -/

/-- Claim C2 counterexample: replay register, create two persons, relate
them, soft-delete one endpoint; get_relationship 1 still answers the row
(isOk is true) although get_relationships answers the empty list, so get
does not apply the same join-and-filter rule as list and does not answer
NotFound for a soft-deleted endpoint. -/
theorem claim2_get_soft_deleted_cex :
    softDeletedEndpointRun = Except.ok (true, []) := by decide

/-- Claim C2 amended: get_relationship answers a row exactly when the join
finds the relationship with both endpoint Persons existing and owned by the
caller — without any is_deleted condition — while get_relationships
additionally requires both endpoints non-deleted; so a relationship with a
soft-deleted endpoint is dropped from list but still answered by get. -/
theorem claim2_get_ownership_filter (caller rid : Nat) (db : DB) :
    ((get_relationship caller rid db).isOk = true ↔
      ∃ r ∈ db.relationships, r.id = rid ∧
        ∃ p1 ∈ db.people, r.person1_id = p1.id ∧ p1.user_id = caller ∧
          ∃ p2 ∈ db.people, r.person2_id = p2.id ∧ p2.user_id = caller) ∧
    (∀ row ∈ get_relationships caller db,
      ∃ r ∈ db.relationships, r.id = row.id ∧
        ∃ p1 ∈ db.people, r.person1_id = p1.id ∧ p1.user_id = caller ∧ p1.is_deleted = false ∧
          ∃ p2 ∈ db.people, r.person2_id = p2.id ∧ p2.user_id = caller ∧
            p2.is_deleted = false) := by
  constructor
  · unfold get_relationship
    cases hj : (relOwnedJoin caller rid db).head? with
    | some tr =>
      constructor
      · intro _
        obtain ⟨h1m, h2m, h3m, he1, he2, hid, ho1, ho2⟩ :=
          mem_relOwnedJoin.mp (List.mem_of_mem_head? hj)
        exact ⟨tr.1, h1m, hid, tr.2.1, h2m, he1, ho1, tr.2.2, h3m, he2, ho2⟩
      · intro _
        rfl
    | none =>
      constructor
      · intro hs
        exact absurd hs (by decide)
      · rintro ⟨r, hrm, hid, p1, hp1, he1, ho1, p2, hp2, he2, ho2⟩
        have hmem : (r, p1, p2) ∈ relOwnedJoin caller rid db :=
          mem_relOwnedJoin.mpr ⟨hrm, hp1, hp2, he1, he2, hid, ho1, ho2⟩
        exact absurd (List.head?_isSome.mpr (List.ne_nil_of_mem hmem))
          (by rw [hj]; simp)
  · intro row hrow
    unfold get_relationships at hrow
    rw [List.mem_map] at hrow
    obtain ⟨tr, htr, hrel⟩ := hrow
    have htr2 : tr ∈ relListJoin caller db :=
      (List.perm_insertionSort relOrder _).mem_iff.mp htr
    obtain ⟨h1m, h2m, h3m, he1, he2, ho1, ho2, hd1, hd2⟩ := mem_relListJoin.mp htr2
    refine ⟨tr.1, h1m, ?_, tr.2.1, h2m, he1, ho1, hd1, tr.2.2, h3m, he2, ho2, hd2⟩
    rw [← hrel]
    rfl

/-! ### The event invariant -/

/-- Claim C6 counterexample: replay register, create a person, record an
event about that person, then soft-delete the person; the invariant that
every Event's created_by references a non-deleted Person owned by the
event's user holds before the soft delete and is broken after it, so the
invariant is not preserved by every operation. -/
theorem claim6_delete_person_breaks_event_invariant_cex :
    eventInvariantRun = Except.ok (true, false) := by decide

/-- Claim C6 amended: create_event establishes the invariant — it succeeds
only when the referenced Person is a non-deleted Person owned by the
caller, and on success the whole store still satisfies the invariant if it
did before; but the invariant is not preserved by delete_person (see the
counterexample), which soft-deletes a Person without touching the Events
that reference it. -/
theorem claim6_event_invariant_at_creation
    (caller : Nat) (input : EventInput) (now : String) (db db1 : DB) (eid : Nat)
    (hok : create_event caller input now db = Except.ok (db1, eid))
    (hinv : eventsConsistent db = true) :
    eventsConsistent db1 = true := by
  simp only [create_event] at hok
  split at hok
  · exact absurd hok (by simp)
  · split at hok
    · exact absurd hok (by simp)
    · rename_i hcond p hfind
      have hdb1 : _ = db1 := congrArg Prod.fst (Except.ok.inj hok)
      rw [← hdb1]
      have hpred := List.find?_some hfind
      rw [Bool.and_eq_true, Bool.and_eq_true] at hpred
      obtain ⟨⟨hpid, hpu⟩, hpdel⟩ := hpred
      have hpmem : p ∈ db.people := List.mem_of_find?_eq_some hfind
      unfold eventsConsistent at hinv ⊢
      rw [List.all_append]
      rw [hinv]
      rw [Bool.true_and]
      rw [List.all_eq_true]
      intro x hx
      rw [List.mem_singleton] at hx
      subst hx
      rw [List.any_eq_true]
      refine ⟨p, hpmem, ?_⟩
      rw [Bool.and_eq_true, Bool.and_eq_true]
      exact ⟨⟨hpid, hpdel⟩, hpu⟩

/-! ### Concrete instantiations -/

theorem claim1_ownership_isolation_witness :
    get_person 2 1 sampleDB = Except.error Err.notFound ∧
    update_person 2 1 pfBob "2025" sampleDB = Except.error Err.notFound ∧
    delete_person 2 1 "2025" sampleDB = Except.error Err.notFound ∧
    get_relationship 2 1 sampleDB = Except.error Err.notFound ∧
    update_relationship 2 1 relInFather "2025" sampleDB = Except.error Err.notFound ∧
    delete_relationship 2 1 sampleDB = Except.error Err.notFound ∧
    get_event 2 1 sampleDB = Except.error Err.notFound ∧
    update_event 2 1 evBirth "2025" sampleDB = Except.error Err.notFound ∧
    delete_event 2 1 sampleDB = Except.error Err.notFound :=
  claim1_ownership_isolation 1 2 sampleDB personAnn personAnn personBen relAnnBen eventAnn
    pfBob relInFather evBirth "2025" (by decide) (by decide) (by decide) (by decide)
    (by decide) (by decide) (by decide) (by decide) (by decide) (by decide) (by decide)
    (by decide) (by decide) (by decide) (by decide) (by decide) (by decide)

theorem claim2_get_ownership_filter_witness :
    (get_relationship 1 1 sampleDB).isOk = true :=
  (claim2_get_ownership_filter 1 1 sampleDB).1.mpr
    ⟨relAnnBen, by decide, by decide, personAnn, by decide, by decide, by decide,
     personBen, by decide, by decide, by decide⟩

theorem claim3_create_relationship_validation_witness :
    create_relationship 1 { relInFather with person2_id := some 1 } "2025" sampleDB =
      Except.error (Err.validation "A person cannot have a relationship with themselves") ∧
    create_relationship 1 { relInFather with type := some "cousin" } "2025" sampleDB =
      Except.error (Err.validation "Invalid relationship type") ∧
    create_relationship 1 { relInFather with type := some "Father" } "2025" sampleDB =
      Except.ok (sampleDBrel, 2) :=
  ⟨(claim3_create_relationship_validation 1 { relInFather with person2_id := some 1 }
      "2025" sampleDB).2.1 (by decide) (by decide),
   (claim3_create_relationship_validation 1 { relInFather with type := some "cousin" }
      "2025" sampleDB).2.2.2.2.2.2.1 (by decide) (by decide) (by decide),
   (claim3_create_relationship_validation 1 { relInFather with type := some "Father" }
      "2025" sampleDB).2.2.2.2.1 (by decide) (by decide) (by decide) (by decide)⟩

theorem claim4_session_resolution_witness :
    (get_current_user (some "Bearer tokA") "2050" sampleDB).isSome = true :=
  (claim4_session_resolution (some "Bearer tokA") "2050" sampleDB).1.mpr
    ⟨"Bearer tokA", rfl, by decide, sessA, by decide, by decide, by decide,
     alice, by decide, by decide, by decide⟩

theorem claim5_soft_delete_semantics_witness :
    delete_person 1 1 "2025" sampleDB = Except.ok sampleDBdel ∧
    get_person 1 1 sampleDBdel = Except.error Err.notFound ∧
    delete_person 1 1 "2026" sampleDBdel = Except.error Err.notFound := by
  obtain ⟨db1, h1, _, _, h4, _, h6⟩ :=
    claim5_soft_delete_semantics 1 personAnn "2025" "2026" sampleDB (by decide) (by decide)
      (by decide) (by decide)
  have h2 : delete_person 1 1 "2025" sampleDB = Except.ok sampleDBdel := by decide
  have hdb1 : db1 = sampleDBdel := Except.ok.inj (h1.symm.trans h2)
  subst hdb1
  exact ⟨h1, h4, h6⟩

theorem claim6_event_invariant_at_creation_witness :
    eventsConsistent sampleDBev = true :=
  claim6_event_invariant_at_creation 1 evBirth "2025" sampleDB sampleDBev 2
    (by decide) (by decide)

theorem claim7_duplicate_username_conflict_witness :
    register regAlice "2025" { DB.empty with users := [alice] } =
      Except.error (Err.conflict "Username already exists") :=
  claim7_duplicate_username_conflict regAlice regAlice "2024" "2025" DB.empty
    { DB.empty with users := [alice] } 1 (by decide) rfl (by decide) (by decide)

theorem claim8_list_events_filter_and_order_witness :
    List.Pairwise specEventOrder (list_events 1 sampleDB) :=
  (claim8_list_events_filter_and_order 1 sampleDB).2

theorem claim9_update_person_frame_witness :
    sampleDBupd.people.length = sampleDB.people.length ∧
    { personAnn with given_name := some "Bob", updated_at := "2025" } ∈ sampleDBupd.people := by
  obtain ⟨-, h2⟩ := claim9_update_person_frame 1 1 pfBob "2025" sampleDB
  obtain ⟨-, -, -, -, hlen, hmem, -⟩ := h2 personAnn sampleDBupd (by decide) (by decide)
  exact ⟨hlen, hmem⟩

theorem claim10_logout_revoke_frame_witness :
    sampleDB.sessions.length ≤ sampleDBlogout.sessions.length + 1 ∧
    get_current_user (some "Bearer tokB") "2050" sampleDBlogout = some (projUser bob) := by
  obtain ⟨-, h2⟩ := claim10_logout_revoke_frame "Bearer tokA" sampleDB (by decide)
  obtain ⟨-, -, -, -, -, -, hlen, hpres, -⟩ := h2 sampleDBlogout (by decide)
  exact ⟨hlen, hpres "Bearer tokB" "2050" (projUser bob) (by decide) (by decide)⟩

end FamilyTree
